import Mathlib

/-!
# Verification of the coroutine socket adapter (folly/io/coro/Socket.cpp)

Shallow embedding of the adapter in `src/folly/io/coro/Socket.cpp`:

* the per-operation callback objects (`ConnectCallback`, `ReadCallback`,
  `WriteCallback`) become explicit state records, and each transport
  callback method (`connectSuccess`, `readDataAvailable`, `readEOF`,
  `readErr`, `timeoutExpired`, `writeSuccess`, `writeErr`, `cancel`)
  becomes a state-transition function transcribed from the C++ body;
* the shared cancellation-aware `CallbackBase::wait(cancelToken)` becomes
  a generic function over the callback state, parameterised by whether the
  cancellation token is already signalled when `wait` starts
  (`cancelAtStart`) and whether it becomes signalled while the coroutine
  is suspended on the baton (`cancelDuring`);
* the adapter entry points `Socket::connect`, `Socket::read` (fixed
  buffer and growing `IOBufQueue` modes) and `Socket::write` become
  functions from the transport's event deliveries to an execution record
  holding the final result, the successor socket state and the
  observable transport interactions (whether the operation was
  registered/issued, whether the coroutine suspended, how many times
  `cancel()` ran, the final callback state).

Execution model (per the source's single-threaded event-reactor design):
the adapter runs from operation issuance to the baton await without
yielding, then the reactor delivers a sequence of transport events to the
callback, then the adapter resumes and inspects the recorded outcome.
The transport invokes a read callback method only while the callback is
installed (`AsyncSocket` checks its `ReadCallback*` before every
delivery), and fires `timeoutExpired` only while the timeout is
scheduled; this gating is part of the transport contract the code relies
on and is modelled in `ReadCallback.step`.
-/

/-- Errors carried by `folly::AsyncSocketException`: the adapter itself
constructs only `TIMED_OUT` (in `ReadCallback::timeoutExpired`); every
other error arrives from the transport and is modelled by its numeric
exception-type code. -/
inductive SocketError : Type where
  | timedOut : SocketError
  | transportError (code : Nat) : SocketError
deriving DecidableEq, Repr

/-- Final outcome of one adapter call, as seen by the caller: a returned
value, a raised transport error, or a raised cancellation
(`co_cancelled`). -/
inductive OpResult (α : Type) : Type where
  | ok (a : α) : OpResult α
  | error (e : SocketError) : OpResult α
  | cancelled : OpResult α
deriving DecidableEq, Repr

/-!
## CallbackBase::wait (Socket.cpp lines 44-63)

```
if (cancelToken.isCancellationRequested()) { cancel(); co_yield co_cancelled; }
CancellationCallback cancellationCallback{cancelToken, [this] { this->post(); }};
co_await wait();
if (cancelToken.isCancellationRequested()) { cancel(); co_yield co_cancelled; }
co_return folly::unit;
```

The cancellation observer installed between the two checks only posts the
baton; `cancel()` itself runs at most once, in whichever check fires.
-/

/-- Observable outcome of one `CallbackBase::wait` call: the callback
state after the call, whether `co_cancelled` was yielded, how many times
`cancel()` was invoked, and whether the baton await was reached (the
pre-check short-circuits before suspending). -/
structure WaitOut (σ : Type) : Type where
  cb : σ
  cancelled : Bool
  cancelCalls : Nat
  suspended : Bool
deriving DecidableEq, Repr

/-- `CallbackBase::wait(cancelToken)`, generic over the concrete callback
type: `cancel` is the variant's `cancel()` override, `deliver` is the
batch of transport events the reactor delivers while the coroutine is
suspended on the baton. If cancellation is already requested at entry,
`cancel()` runs and `co_cancelled` is yielded before the operation's
events can be observed; otherwise the coroutine suspends, events are
delivered, and the post-resume check yields `co_cancelled` (after running
`cancel()`) exactly when cancellation was requested in the meantime. -/
def CallbackBase.wait {σ : Type} (cancel : σ → σ) (deliver : σ → σ)
    (cancelAtStart cancelDuring : Bool) (cb : σ) : WaitOut σ :=
  if cancelAtStart then
    { cb := cancel cb, cancelled := true, cancelCalls := 1, suspended := false }
  else if cancelDuring then
    { cb := cancel (deliver cb), cancelled := true, cancelCalls := 1, suspended := true }
  else
    { cb := deliver cb, cancelled := false, cancelCalls := 0, suspended := true }

/-!
## ConnectCallback (Socket.cpp lines 82-97)
-/

/-- State of a `ConnectCallback`: the recorded error, the number of
`post()` invocations on the baton, and whether `cancel()` has invoked
`socket_->cancelConnect()`. -/
structure ConnectCallback : Type where
  error : Option SocketError
  postCount : Nat
  connectAborted : Bool
deriving DecidableEq, Repr

/-- A freshly constructed `ConnectCallback`. -/
def ConnectCallback.mk0 : ConnectCallback :=
  { error := none, postCount := 0, connectAborted := false }

/-- `post()`: posts the baton (idempotent one-shot signal); we count the
invocations to reason about double delivery. -/
def ConnectCallback.post (cb : ConnectCallback) : ConnectCallback :=
  { cb with postCount := cb.postCount + 1 }

/-- `connectSuccess()`: just posts. -/
def ConnectCallback.connectSuccess (cb : ConnectCallback) : ConnectCallback :=
  cb.post

/-- `connectErr(ex)`: records the error, posts. -/
def ConnectCallback.connectErr (cb : ConnectCallback) (e : SocketError) :
    ConnectCallback :=
  ({ cb with error := some e }).post

/-- `cancel()` override: `socket_->cancelConnect()`. -/
def ConnectCallback.cancel (cb : ConnectCallback) : ConnectCallback :=
  { cb with connectAborted := true }

/-- The single terminal event the transport delivers for a connect
registration (the `ConnectCallback` contract is one notification). -/
inductive ConnectEvent : Type where
  | success : ConnectEvent
  | err (e : SocketError) : ConnectEvent
deriving DecidableEq, Repr

/-- Deliver the (at most one) connect notification to the callback. -/
def ConnectCallback.deliver (cb : ConnectCallback) :
    Option ConnectEvent → ConnectCallback
  | none => cb
  | some .success => cb.connectSuccess
  | some (.err e) => cb.connectErr e

/-!
## ReadCallback (Socket.cpp lines 103-222)
-/

/-- The two read-buffer modes of `ReadCallback`: a fixed caller buffer
(`folly::MutableByteRange buf_`, carrying its size) or a growing
`IOBufQueue` with a minimum-read-size / new-allocation-size policy. -/
inductive ReadMode : Type where
  | fixed (bufSize : Nat) : ReadMode
  | growing (minReadSize newAllocationSize : Nat) : ReadMode
deriving DecidableEq, Repr

/-- State of a `ReadCallback`: the buffer mode, the running byte count
`length`, the `eof` flag, the recorded error, whether the socket's read
callback pointer currently points at this object
(`socket_->setReadCB(this/nullptr)`), whether a wheel-timer timeout is
scheduled on it, and the number of `post()` invocations. -/
structure ReadCallback : Type where
  mode : ReadMode
  length : Nat
  eof : Bool
  error : Option SocketError
  readCBInstalled : Bool
  timerScheduled : Bool
  postCount : Nat
deriving DecidableEq, Repr

/-- The `ReadCallback` constructor: zero length, no eof, no error, and a
timeout scheduled iff the requested timeout is positive
(`if (timeout.count() > 0) ... scheduleTimeout`). The read-callback
pointer is installed afterwards by `Socket::read` via
`socket_->setReadCB(&cb)`; `readInit` is the state right after that
installation. -/
def ReadCallback.mk0 (mode : ReadMode) (timeoutPos : Bool) : ReadCallback :=
  { mode := mode, length := 0, eof := false, error := none,
    readCBInstalled := false, timerScheduled := timeoutPos, postCount := 0 }

/-- Callback state after `ReadCallback cb{...}; socket_->setReadCB(&cb);`
in `Socket::read`. -/
def readInit (mode : ReadMode) (timeoutPos : Bool) : ReadCallback :=
  { ReadCallback.mk0 mode timeoutPos with readCBInstalled := true }

/-- `post()` on the baton, counted. -/
def ReadCallback.post (cb : ReadCallback) : ReadCallback :=
  { cb with postCount := cb.postCount + 1 }

/-- `getReadBuffer(buf, len)`: the region offered to the transport for
the next data delivery, as (offset into the logical stream, byte
capacity). Fixed mode offers the unfilled remainder of the caller's
buffer, `(buf_.begin() + length, buf_.size() - length)`; growing mode
offers the region of `readBuf_->preallocate(minReadSize_,
newAllocationSize_)`, which is a fresh tail block of at least
`minReadSize_` writable bytes (modelled at that lower bound; its exact
size is internal to `IOBufQueue` and unconstrained by the adapter). -/
def ReadCallback.getReadBuffer (cb : ReadCallback) : Nat × Nat :=
  match cb.mode with
  | .fixed bufSize => (cb.length, bufSize - cb.length)
  | .growing minReadSize _ => (cb.length, minReadSize)

/-- `readDataAvailable(len)`: accumulate `length += len`; in growing mode
commit the bytes with `readBuf_->postallocate(len)` (queue-internal, no
callback-state effect); in fixed mode, when the buffer became exactly
full, uninstall the read callback and cancel the timeout; always post. -/
def ReadCallback.readDataAvailable (cb : ReadCallback) (len : Nat) :
    ReadCallback :=
  let cb' := { cb with length := cb.length + len }
  match cb'.mode with
  | .growing _ _ => cb'.post
  | .fixed bufSize =>
      if cb'.length = bufSize then
        ({ cb' with readCBInstalled := false, timerScheduled := false }).post
      else
        cb'.post

/-- `readEOF()`: uninstall the read callback, cancel the timeout, set
`eof`, post. -/
def ReadCallback.readEOF (cb : ReadCallback) : ReadCallback :=
  ({ cb with readCBInstalled := false, timerScheduled := false,
             eof := true }).post

/-- `readErr(ex)`: uninstall the read callback, cancel the timeout,
record the error, post. -/
def ReadCallback.readErr (cb : ReadCallback) (e : SocketError) : ReadCallback :=
  ({ cb with readCBInstalled := false, timerScheduled := false,
             error := some e }).post

/-- `timeoutExpired()`: uninstall the read callback (unconditionally; the
timer itself has fired and is no longer scheduled); if no data has been
read so far, record a `TIMED_OUT` error and post; otherwise do nothing
further — the earlier data event already posted. -/
def ReadCallback.timeoutExpired (cb : ReadCallback) : ReadCallback :=
  let cb' := { cb with readCBInstalled := false, timerScheduled := false }
  if cb'.length = 0 then
    ({ cb' with error := some SocketError.timedOut }).post
  else
    cb'

/-- `cancel()` override: `socket_->setReadCB(nullptr); cancelTimeout();`. -/
def ReadCallback.cancel (cb : ReadCallback) : ReadCallback :=
  { cb with readCBInstalled := false, timerScheduled := false }

/-- One transport/timer event aimed at a read registration. -/
inductive ReadEvent : Type where
  | data (len : Nat) : ReadEvent
  | eof : ReadEvent
  | err (e : SocketError) : ReadEvent
  | timeout : ReadEvent
deriving DecidableEq, Repr

/-- Deliver one event under the transport contract: `AsyncSocket` invokes
`getReadBuffer`/`readDataAvailable`/`readEOF`/`readErr` only while this
callback is installed as the socket's read callback, and the wheel timer
fires `timeoutExpired` only while the timeout is scheduled. An event
aimed at a deregistered callback is simply not delivered. -/
def ReadCallback.step (cb : ReadCallback) : ReadEvent → ReadCallback
  | .data len => if cb.readCBInstalled then cb.readDataAvailable len else cb
  | .eof => if cb.readCBInstalled then cb.readEOF else cb
  | .err e => if cb.readCBInstalled then cb.readErr e else cb
  | .timeout => if cb.timerScheduled then cb.timeoutExpired else cb

/-- Deliver a sequence of events in reactor order. -/
def ReadCallback.run (cb : ReadCallback) (evs : List ReadEvent) : ReadCallback :=
  evs.foldl ReadCallback.step cb

/-- Transport contract on a delivered event sequence: every data event
that is actually delivered (the callback is installed) writes at most the
byte capacity that `getReadBuffer` offered at that moment. -/
def ReadCallback.validRun (cb : ReadCallback) : List ReadEvent → Bool
  | [] => true
  | ev :: rest =>
      (match ev with
       | .data len => !cb.readCBInstalled || decide (len ≤ (cb.getReadBuffer).2)
       | _ => true)
      && (cb.step ev).validRun rest

/-!
## WriteCallback (Socket.cpp lines 228-256)
-/

/-- State of a `WriteCallback`: bytes written before a failure, the
recorded error, the `post()` count, and whether `cancel()` has invoked
`socket_->closeWithReset()`. -/
structure WriteCallback : Type where
  bytesWritten : Nat
  error : Option SocketError
  postCount : Nat
  closedWithReset : Bool
deriving DecidableEq, Repr

/-- A freshly constructed `WriteCallback`: `bytesWritten{0}`, no error. -/
def WriteCallback.mk0 : WriteCallback :=
  { bytesWritten := 0, error := none, postCount := 0, closedWithReset := false }

/-- `post()` on the baton, counted. -/
def WriteCallback.post (cb : WriteCallback) : WriteCallback :=
  { cb with postCount := cb.postCount + 1 }

/-- `writeSuccess()`: just posts. -/
def WriteCallback.writeSuccess (cb : WriteCallback) : WriteCallback :=
  cb.post

/-- `writeErr(bytes, ex)`: records the partial byte count and the error,
posts. -/
def WriteCallback.writeErr (cb : WriteCallback) (bytes : Nat) (e : SocketError) :
    WriteCallback :=
  ({ cb with bytesWritten := bytes, error := some e }).post

/-- `cancel()` override: `socket_->closeWithReset()`. -/
def WriteCallback.cancel (cb : WriteCallback) : WriteCallback :=
  { cb with closedWithReset := true }

/-- The single terminal event the transport delivers for one issued
write: success, or failure after `bytes` bytes. -/
inductive WriteEvent : Type where
  | success : WriteEvent
  | err (bytes : Nat) (e : SocketError) : WriteEvent
deriving DecidableEq, Repr

/-- Deliver the (at most one) write notification to the callback. -/
def WriteCallback.deliver (cb : WriteCallback) :
    Option WriteEvent → WriteCallback
  | none => cb
  | some .success => cb.writeSuccess
  | some (.err bytes e) => cb.writeErr bytes e

/-!
## The Socket adapter (Socket.cpp lines 263-382)
-/

/-- Adapter-local state of a `Socket`: the one `deferredReadEOF_` bit. -/
structure Socket : Type where
  deferredReadEOF : Bool
deriving DecidableEq, Repr

/-- Observable execution of one `Socket::connect` call. `issuedConnect`
records whether `socket->connect(&cb, destAddr, timeout)` ran. -/
structure ConnectExec : Type where
  result : OpResult Unit
  issuedConnect : Bool
  suspended : Bool
  cancelCalls : Nat
  cb : ConnectCallback
deriving DecidableEq, Repr

/-- `Socket::connect`: build the socket, issue `connect` with a fresh
`ConnectCallback`, `co_await cb.wait(token)`; a cancellation outcome of
the wait is re-raised first, then a recorded transport error, and only
then is the connected `Socket` returned. The connect is issued before
`wait` runs its pre-check. -/
def Socket.connect (cancelAtStart cancelDuring : Bool)
    (ev : Option ConnectEvent) : ConnectExec :=
  let w := CallbackBase.wait ConnectCallback.cancel
    (fun c => c.deliver ev) cancelAtStart cancelDuring ConnectCallback.mk0
  if w.cancelled then
    { result := .cancelled, issuedConnect := true, suspended := w.suspended,
      cancelCalls := w.cancelCalls, cb := w.cb }
  else
    match w.cb.error with
    | some e =>
        { result := .error e, issuedConnect := true, suspended := w.suspended,
          cancelCalls := w.cancelCalls, cb := w.cb }
    | none =>
        { result := .ok (), issuedConnect := true, suspended := w.suspended,
          cancelCalls := w.cancelCalls, cb := w.cb }

/-- Observable execution of one `Socket::read` call. `registered` records
whether `socket_->setReadCB(&cb)` ran (the transport registration);
`cb` is the final callback state when a callback was constructed at all
(the deferred-EOF fast path constructs none). -/
structure ReadExec : Type where
  result : OpResult Nat
  sock : Socket
  registered : Bool
  suspended : Bool
  cancelCalls : Nat
  cb : Option ReadCallback
deriving DecidableEq, Repr

/-- `Socket::read` (both overloads; `mode` selects the fixed-buffer or
growing-buffer form, which differ only in the callback constructed):

1. if `deferredReadEOF_` is set, clear it and return 0 — no callback, no
   registration, no suspension;
2. otherwise construct the `ReadCallback`, install it with
   `socket_->setReadCB(&cb)`, and `co_await cb.wait(token)` while the
   reactor delivers `evs`;
3. a cancellation outcome re-raises first, then a recorded error — both
   leave `deferredReadEOF_` untouched;
4. on success, `socket_->setReadCB(nullptr)`, set
   `deferredReadEOF_ = (cb.eof && cb.length > 0)`, return `cb.length`. -/
def Socket.read (s : Socket) (mode : ReadMode) (timeoutPos : Bool)
    (cancelAtStart cancelDuring : Bool) (evs : List ReadEvent) : ReadExec :=
  if s.deferredReadEOF then
    { result := .ok 0, sock := { deferredReadEOF := false },
      registered := false, suspended := false, cancelCalls := 0, cb := none }
  else
    let w := CallbackBase.wait ReadCallback.cancel
      (fun c => c.run evs) cancelAtStart cancelDuring (readInit mode timeoutPos)
    if w.cancelled then
      { result := .cancelled, sock := s, registered := true,
        suspended := w.suspended, cancelCalls := w.cancelCalls, cb := some w.cb }
    else
      match w.cb.error with
      | some e =>
          { result := .error e, sock := s, registered := true,
            suspended := w.suspended, cancelCalls := w.cancelCalls,
            cb := some w.cb }
      | none =>
          { result := .ok w.cb.length,
            sock := { deferredReadEOF := w.cb.eof && decide (0 < w.cb.length) },
            registered := true, suspended := w.suspended,
            cancelCalls := w.cancelCalls,
            cb := some { w.cb with readCBInstalled := false } }

/-- Observable execution of one `Socket::write` call.
`writeInfoOut = some k` means the caller-supplied `writeInfo` had
`bytesWritten` set to `k` before the error was raised; `none` means the
out-parameter was absent or never written. -/
structure WriteExec : Type where
  result : OpResult Unit
  writeInfoOut : Option Nat
  issuedWrite : Bool
  suspended : Bool
  cancelCalls : Nat
  cb : WriteCallback
deriving DecidableEq, Repr

/-- `Socket::write` (both overloads; the single-buffer and
`IOBufQueue` forms differ only in issuing `write` vs `writev` and share
the callback and error logic verbatim): set the send timeout, issue the
write with a fresh `WriteCallback`, `co_await cb.wait(token)`; on a wait
exception (cancellation) and on a recorded write error alike, first copy
`cb.bytesWritten` into `writeInfo` when it was supplied, then raise. -/
def Socket.write (writeInfoSupplied : Bool) (cancelAtStart cancelDuring : Bool)
    (ev : Option WriteEvent) : WriteExec :=
  let w := CallbackBase.wait WriteCallback.cancel
    (fun c => c.deliver ev) cancelAtStart cancelDuring WriteCallback.mk0
  if w.cancelled then
    { result := .cancelled,
      writeInfoOut := if writeInfoSupplied then some w.cb.bytesWritten else none,
      issuedWrite := true, suspended := w.suspended,
      cancelCalls := w.cancelCalls, cb := w.cb }
  else
    match w.cb.error with
    | some e =>
        { result := .error e,
          writeInfoOut := if writeInfoSupplied then some w.cb.bytesWritten else none,
          issuedWrite := true, suspended := w.suspended,
          cancelCalls := w.cancelCalls, cb := w.cb }
    | none =>
        { result := .ok (), writeInfoOut := none, issuedWrite := true,
          suspended := w.suspended, cancelCalls := w.cancelCalls, cb := w.cb }

/-!
## Helper lemmas
-/

/-- No event delivery changes the buffer mode of a read callback. -/
theorem ReadCallback.mode_step (cb : ReadCallback) (ev : ReadEvent) :
    (cb.step ev).mode = cb.mode := by
  cases ev <;>
    simp only [ReadCallback.step, ReadCallback.readDataAvailable,
      ReadCallback.readEOF, ReadCallback.readErr, ReadCallback.timeoutExpired,
      ReadCallback.post] <;>
    split <;> (try split) <;> (try split) <;> rfl

/-- `readDataAvailable` adds the delivered count to the running length. -/
theorem ReadCallback.readDataAvailable_length (cb : ReadCallback) (len : Nat) :
    (cb.readDataAvailable len).length = cb.length + len := by
  simp only [ReadCallback.readDataAvailable, ReadCallback.post]
  split <;> (try split) <;> rfl

/-- `readDataAvailable` leaves the recorded error, the eof flag and the
mode unchanged. -/
theorem ReadCallback.readDataAvailable_frame (cb : ReadCallback) (len : Nat) :
    (cb.readDataAvailable len).error = cb.error ∧
    (cb.readDataAvailable len).eof = cb.eof ∧
    (cb.readDataAvailable len).mode = cb.mode := by
  simp only [ReadCallback.readDataAvailable, ReadCallback.post]
  split <;> (try split) <;> exact ⟨rfl, rfl, rfl⟩

/-- Events other than data delivery leave the running length unchanged. -/
theorem ReadCallback.step_length_of_ne_data (cb : ReadCallback) (ev : ReadEvent)
    (h : ∀ len, ev ≠ .data len) : (cb.step ev).length = cb.length := by
  cases ev with
  | data len => exact absurd rfl (h len)
  | eof =>
      simp only [ReadCallback.step, ReadCallback.readEOF, ReadCallback.post]
      split <;> rfl
  | err e =>
      simp only [ReadCallback.step, ReadCallback.readErr, ReadCallback.post]
      split <;> rfl
  | timeout =>
      simp only [ReadCallback.step, ReadCallback.timeoutExpired, ReadCallback.post]
      split <;> (try split) <;> rfl

/-- Core invariant behind C9: under the transport contract
(`validRun`), a fixed-mode callback whose length is within the buffer
keeps its length within the buffer across any delivered event sequence. -/
theorem ReadCallback.length_le_of_validRun (bufSize : Nat) (evs : List ReadEvent) :
    ∀ cb : ReadCallback, cb.mode = .fixed bufSize → cb.length ≤ bufSize →
      cb.validRun evs = true → (cb.run evs).length ≤ bufSize := by
  induction evs with
  | nil =>
      intro cb _ hlen _
      simpa [ReadCallback.run] using hlen
  | cons ev rest ih =>
      intro cb hmode hlen hval
      simp only [ReadCallback.validRun, Bool.and_eq_true] at hval
      have hrun : cb.run (ev :: rest) = (cb.step ev).run rest := rfl
      rw [hrun]
      refine ih (cb.step ev) ?_ ?_ hval.2
      · rw [ReadCallback.mode_step, hmode]
      · cases ev with
        | data len =>
            by_cases hinst : cb.readCBInstalled
            · have hguard : len ≤ (cb.getReadBuffer).2 := by
                rcases hval.1 with h1
                simp [hinst] at h1
                exact h1
              have hoff : (cb.getReadBuffer).2 = bufSize - cb.length := by
                simp [ReadCallback.getReadBuffer, hmode]
              have hstep : cb.step (.data len) = cb.readDataAvailable len := by
                simp [ReadCallback.step, hinst]
              rw [hstep, ReadCallback.readDataAvailable_length]
              omega
            · have hstep : cb.step (.data len) = cb := by
                simp [ReadCallback.step, hinst]
              rw [hstep]; exact hlen
        | eof =>
            rw [ReadCallback.step_length_of_ne_data cb .eof (by intro l h; cases h)]
            exact hlen
        | err e =>
            rw [ReadCallback.step_length_of_ne_data cb (.err e) (by intro l h; cases h)]
            exact hlen
        | timeout =>
            rw [ReadCallback.step_length_of_ne_data cb .timeout (by intro l h; cases h)]
            exact hlen

/-- A read callback that is deregistered and whose timer is disarmed is
inert: the transport contract delivers it no further event. -/
theorem ReadCallback.run_inert (evs : List ReadEvent) :
    ∀ cb : ReadCallback, cb.readCBInstalled = false → cb.timerScheduled = false →
      cb.run evs = cb := by
  induction evs with
  | nil => intro cb _ _; rfl
  | cons ev rest ih =>
      intro cb hcb htimer
      have hstep : cb.step ev = cb := by
        cases ev <;> simp [ReadCallback.step, hcb, htimer]
      have hrun : cb.run (ev :: rest) = (cb.step ev).run rest := rfl
      rw [hrun, hstep]
      exact ih cb hcb htimer

/-- Whenever the deferred-EOF fast path is not taken, `Socket::read`
registers its callback with the transport (`setReadCB(&cb)` runs),
whatever the cancellation state and delivered events. -/
theorem Socket.read_registered_of_not_deferred (s : Socket) (mode : ReadMode)
    (t k1 k2 : Bool) (evs : List ReadEvent) (h : s.deferredReadEOF = false) :
    (Socket.read s mode t k1 k2 evs).registered = true := by
  simp only [Socket.read, h, Bool.false_eq_true, if_false]
  split
  · rfl
  · split <;> rfl

/-!
## Claims
-/

/-- C1: For every fixed-buffer or growing-buffer read in which the
transport delivers `N > 0` bytes and end-of-stream in one event (i.e.
`readDataAvailable(N)` immediately followed by `readEOF()` reaching the
same callback), the read returns `N` and sets `deferredReadEOF_`, and the
immediately following read on that socket returns 0 without registering
any callback with the transport and without suspending, whatever its
arguments. -/
theorem c1_data_then_eof_defers (s : Socket) (mode : ReadMode)
    (timeoutPos : Bool) (N : Nat) (hN : 0 < N)
    (hdef : s.deferredReadEOF = false)
    (hdeliv : ((readInit mode timeoutPos).readDataAvailable N).readCBInstalled
      = true) :
    (Socket.read s mode timeoutPos false false
        [ReadEvent.data N, ReadEvent.eof]).result = OpResult.ok N ∧
    (Socket.read s mode timeoutPos false false
        [ReadEvent.data N, ReadEvent.eof]).sock = { deferredReadEOF := true } ∧
    ∀ (mode2 : ReadMode) (t2 k1 k2 : Bool) (evs2 : List ReadEvent),
      (Socket.read (Socket.read s mode timeoutPos false false
          [ReadEvent.data N, ReadEvent.eof]).sock
          mode2 t2 k1 k2 evs2).result = OpResult.ok 0 ∧
      (Socket.read (Socket.read s mode timeoutPos false false
          [ReadEvent.data N, ReadEvent.eof]).sock
          mode2 t2 k1 k2 evs2).registered = false ∧
      (Socket.read (Socket.read s mode timeoutPos false false
          [ReadEvent.data N, ReadEvent.eof]).sock
          mode2 t2 k1 k2 evs2).suspended = false := by
  have hstep1 : (readInit mode timeoutPos).step (ReadEvent.data N)
      = (readInit mode timeoutPos).readDataAvailable N := by
    simp [ReadCallback.step, readInit]
  have hstep2 : ((readInit mode timeoutPos).readDataAvailable N).step ReadEvent.eof
      = ((readInit mode timeoutPos).readDataAvailable N).readEOF := by
    simp [ReadCallback.step, hdeliv]
  have hrun : (readInit mode timeoutPos).run [ReadEvent.data N, ReadEvent.eof]
      = ((readInit mode timeoutPos).readDataAvailable N).readEOF := by
    simp [ReadCallback.run, hstep1, hstep2]
  have herr : (((readInit mode timeoutPos).readDataAvailable N).readEOF).error
      = none := by
    show ((readInit mode timeoutPos).readDataAvailable N).error = none
    rw [(ReadCallback.readDataAvailable_frame _ N).1]
    rfl
  have hlen : (((readInit mode timeoutPos).readDataAvailable N).readEOF).length
      = N := by
    show ((readInit mode timeoutPos).readDataAvailable N).length = N
    rw [ReadCallback.readDataAvailable_length]
    simp [readInit, ReadCallback.mk0]
  have heof : (((readInit mode timeoutPos).readDataAvailable N).readEOF).eof
      = true := rfl
  have hmain : Socket.read s mode timeoutPos false false
      [ReadEvent.data N, ReadEvent.eof]
      = { result := OpResult.ok N, sock := { deferredReadEOF := true },
          registered := true, suspended := true, cancelCalls := 0,
          cb := some { ((readInit mode timeoutPos).readDataAvailable N).readEOF
                        with readCBInstalled := false } } := by
    simp [Socket.read, hdef, CallbackBase.wait, hrun, herr, hlen, heof, hN,
      Nat.pos_iff_ne_zero.mp hN]
  refine ⟨by rw [hmain], by rw [hmain], ?_⟩
  intro mode2 t2 k1 k2 evs2
  rw [hmain]
  exact ⟨rfl, rfl, rfl⟩

/-- Witness for C1 at a concrete input: a 10-byte fixed-buffer read on a
fresh socket receiving 4 bytes then EOF in one event. -/
theorem c1_data_then_eof_defers_witness :
    (0 < 4 ∧ Socket.deferredReadEOF { deferredReadEOF := false } = false ∧
      ((readInit (ReadMode.fixed 10) false).readDataAvailable 4).readCBInstalled
        = true) ∧
    (Socket.read { deferredReadEOF := false } (ReadMode.fixed 10) false false
        false [ReadEvent.data 4, ReadEvent.eof]).result = OpResult.ok 4 :=
  ⟨⟨by decide, by decide, by decide⟩,
    (c1_data_then_eof_defers { deferredReadEOF := false } (ReadMode.fixed 10)
      false 4 (by decide) (by decide) (by decide)).1⟩

/-- C7: For every read in which the transport delivers end-of-stream with
zero bytes of data, the read call returns 0 directly, `deferredReadEOF_`
is not set, and the next read interacts with the transport normally (it
registers its callback with the transport). -/
theorem c7_eof_without_data (s : Socket) (mode : ReadMode) (timeoutPos : Bool)
    (hdef : s.deferredReadEOF = false) :
    (Socket.read s mode timeoutPos false false [ReadEvent.eof]).result
      = OpResult.ok 0 ∧
    (Socket.read s mode timeoutPos false false [ReadEvent.eof]).sock
      = { deferredReadEOF := false } ∧
    ∀ (mode2 : ReadMode) (t2 k1 k2 : Bool) (evs2 : List ReadEvent),
      (Socket.read (Socket.read s mode timeoutPos false false
          [ReadEvent.eof]).sock mode2 t2 k1 k2 evs2).registered = true := by
  have hstep : (readInit mode timeoutPos).step ReadEvent.eof
      = (readInit mode timeoutPos).readEOF := by
    simp [ReadCallback.step, readInit]
  have hrun : (readInit mode timeoutPos).run [ReadEvent.eof]
      = (readInit mode timeoutPos).readEOF := by
    simp [ReadCallback.run, hstep]
  have herr : ((readInit mode timeoutPos).readEOF).error = none := rfl
  have hlen : ((readInit mode timeoutPos).readEOF).length = 0 := rfl
  have hmain : Socket.read s mode timeoutPos false false [ReadEvent.eof]
      = { result := OpResult.ok 0, sock := { deferredReadEOF := false },
          registered := true, suspended := true, cancelCalls := 0,
          cb := some { (readInit mode timeoutPos).readEOF
                        with readCBInstalled := false } } := by
    simp [Socket.read, hdef, CallbackBase.wait, hrun, herr, hlen]
  refine ⟨by rw [hmain], by rw [hmain], ?_⟩
  intro mode2 t2 k1 k2 evs2
  rw [hmain]
  exact Socket.read_registered_of_not_deferred _ mode2 t2 k1 k2 evs2 rfl

/-- Witness for C7 at a concrete input: a growing-buffer read on a fresh
socket receiving a bare EOF. -/
theorem c7_eof_without_data_witness :
    Socket.deferredReadEOF { deferredReadEOF := false } = false ∧
    (Socket.read { deferredReadEOF := false } (ReadMode.growing 1460 4000) true
        false false [ReadEvent.eof]).result = OpResult.ok 0 :=
  ⟨by decide,
    (c7_eof_without_data { deferredReadEOF := false } (ReadMode.growing 1460 4000)
      true (by decide)).1⟩

/-- C2: For every operation (connect, read, write), if cancellation is
requested after the operation is issued but before the transport
completes — i.e. the pre-`wait` token check is clean and the token fires
while the coroutine is suspended — then `cancel()` is invoked exactly
once on the active callback and the final result is `Cancelled`, whatever
transport outcome (success, error, data, EOF) was also recorded before
the adapter resumed. -/
theorem c2_cancel_during_wait (s : Socket) (mode : ReadMode) (timeoutPos : Bool)
    (evs : List ReadEvent) (cev : Option ConnectEvent) (wev : Option WriteEvent)
    (supplied : Bool) (hdef : s.deferredReadEOF = false) :
    ((Socket.connect false true cev).result = OpResult.cancelled ∧
      (Socket.connect false true cev).cancelCalls = 1) ∧
    ((Socket.read s mode timeoutPos false true evs).result = OpResult.cancelled ∧
      (Socket.read s mode timeoutPos false true evs).cancelCalls = 1) ∧
    ((Socket.write supplied false true wev).result = OpResult.cancelled ∧
      (Socket.write supplied false true wev).cancelCalls = 1) := by
  refine ⟨⟨rfl, rfl⟩, ⟨?_, ?_⟩, ⟨rfl, rfl⟩⟩ <;>
    simp [Socket.read, hdef, CallbackBase.wait]

/-- Witness for C2 at a concrete input: a fixed-buffer read on a fresh
socket, cancelled while suspended even though the transport had already
recorded 5 bytes and EOF. -/
theorem c2_cancel_during_wait_witness :
    Socket.deferredReadEOF { deferredReadEOF := false } = false ∧
    (Socket.read { deferredReadEOF := false } (ReadMode.fixed 8) false false
        true [ReadEvent.data 5, ReadEvent.eof]).result = OpResult.cancelled :=
  ⟨by decide,
    ((c2_cancel_during_wait { deferredReadEOF := false } (ReadMode.fixed 8)
      false [ReadEvent.data 5, ReadEvent.eof] none none false
      (by decide)).2.1).1⟩

/-- Counterexample to C3 as stated: with cancellation already requested
strictly before the operation is issued, all three operations do report
`Cancelled` — but the transport IS invoked first. `Socket::read` runs
`socket_->setReadCB(&cb)` (line 292), `Socket::connect` runs
`socket->connect(&cb, ...)` (line 271) and `Socket::write` runs
`socket_->write(&cb, ...)` (line 339) before `cb.wait` performs its
cancellation pre-check, so "no connect/read/write registration with the
transport occurs" is false. -/
theorem c3_counterexample_precancel_registers :
    (Socket.read { deferredReadEOF := false } (ReadMode.fixed 10) false true
        false []).result = OpResult.cancelled ∧
    (Socket.read { deferredReadEOF := false } (ReadMode.fixed 10) false true
        false []).registered = true ∧
    (Socket.connect true false none).result = OpResult.cancelled ∧
    (Socket.connect true false none).issuedConnect = true ∧
    (Socket.write true true false none).result = OpResult.cancelled ∧
    (Socket.write true true false none).issuedWrite = true := by
  decide

/-- C3 amended: if cancellation is already requested strictly before the
operation is issued, the result is `Cancelled`, `cancel()` is invoked
pre-emptively exactly once, and the coroutine never suspends and observes
no transport event — but the operation is first registered with /
issued to the transport, and the pre-emptive `cancel()` then revokes it
(deregistering the read callback and cancelling its timer, aborting the
in-flight connect, force-closing the socket for a write). -/
theorem c3_amended_precancel (s : Socket) (mode : ReadMode) (timeoutPos : Bool)
    (evs : List ReadEvent) (cev : Option ConnectEvent) (wev : Option WriteEvent)
    (supplied : Bool) (hdef : s.deferredReadEOF = false) :
    ((Socket.read s mode timeoutPos true false evs).result = OpResult.cancelled ∧
      (Socket.read s mode timeoutPos true false evs).registered = true ∧
      (Socket.read s mode timeoutPos true false evs).suspended = false ∧
      (Socket.read s mode timeoutPos true false evs).cancelCalls = 1 ∧
      (Socket.read s mode timeoutPos true false evs).cb
        = some ((readInit mode timeoutPos).cancel)) ∧
    ((Socket.connect true false cev).result = OpResult.cancelled ∧
      (Socket.connect true false cev).issuedConnect = true ∧
      (Socket.connect true false cev).suspended = false ∧
      (Socket.connect true false cev).cancelCalls = 1 ∧
      (Socket.connect true false cev).cb.connectAborted = true) ∧
    ((Socket.write supplied true false wev).result = OpResult.cancelled ∧
      (Socket.write supplied true false wev).issuedWrite = true ∧
      (Socket.write supplied true false wev).suspended = false ∧
      (Socket.write supplied true false wev).cancelCalls = 1 ∧
      (Socket.write supplied true false wev).cb.closedWithReset = true) := by
  refine ⟨⟨?_, ?_, ?_, ?_, ?_⟩, ⟨rfl, rfl, rfl, rfl, rfl⟩,
    ⟨rfl, rfl, rfl, rfl, rfl⟩⟩ <;>
    simp [Socket.read, hdef, CallbackBase.wait]

/-- Witness for C3 amended at a concrete input: a pre-cancelled growing
read on a fresh socket. -/
theorem c3_amended_precancel_witness :
    Socket.deferredReadEOF { deferredReadEOF := false } = false ∧
    (Socket.read { deferredReadEOF := false } (ReadMode.growing 100 200) true
        true false []).result = OpResult.cancelled :=
  ⟨by decide,
    ((c3_amended_precancel { deferredReadEOF := false } (ReadMode.growing 100 200)
      true [] none none true (by decide)).1).1⟩

/-- Counterexample to C6 as stated: on a fixed 10-byte read, 4 bytes of
data followed by EOF in the same event-loop run reach the same
`ReadCallback` instance and `post()` runs twice — `readDataAvailable`
posts without deregistering when the buffer is only part-filled (the
second conjunct shows the callback is still installed after the data
event), so the racing `readEOF` is delivered and posts again. Hence
"post() occurs at most once" and "each variant deregisters from the
transport as its first action on any terminal event" both fail. (The
double post is harmless in the code — `Baton::post` is idempotent — and
is precisely the run that sets the deferred-EOF state.) -/
theorem c6_counterexample_double_post :
    ((readInit (ReadMode.fixed 10) false).run
        [ReadEvent.data 4, ReadEvent.eof]).postCount = 2 ∧
    ((readInit (ReadMode.fixed 10) false).readDataAvailable 4).readCBInstalled
      = true := by
  decide

/-- C6 amended: `readEOF`, `readErr` and `timeoutExpired` each leave the
callback deregistered with its timer disarmed, and a data event does so
exactly when it fills a fixed buffer; once a read callback is
deregistered and its timer disarmed it is inert — no subsequent event in
the same or a later reactor run is delivered to it, so its post count can
no longer change. `post()` itself, however, may run twice on one
instance: a part-filling data event posts without deregistering, so a
racing EOF/error in the same run posts again; the completion signal is an
idempotent one-shot baton, so the extra post has no further effect. -/
theorem c6_amended_terminal_events_deregister (cb : ReadCallback)
    (e : SocketError) (len : Nat) (evs : List ReadEvent) :
    (cb.readEOF.readCBInstalled = false ∧ cb.readEOF.timerScheduled = false) ∧
    ((cb.readErr e).readCBInstalled = false ∧
      (cb.readErr e).timerScheduled = false) ∧
    (cb.timeoutExpired.readCBInstalled = false ∧
      cb.timeoutExpired.timerScheduled = false) ∧
    (∀ bufSize : Nat, cb.mode = ReadMode.fixed bufSize →
      cb.length + len = bufSize →
      (cb.readDataAvailable len).readCBInstalled = false ∧
      (cb.readDataAvailable len).timerScheduled = false) ∧
    (cb.readCBInstalled = false → cb.timerScheduled = false →
      cb.run evs = cb) := by
  refine ⟨⟨rfl, rfl⟩, ⟨rfl, rfl⟩, ?_, ?_, ?_⟩
  · simp only [ReadCallback.timeoutExpired, ReadCallback.post]
    split <;> exact ⟨rfl, rfl⟩
  · intro bufSize hmode hfull
    simp [ReadCallback.readDataAvailable, ReadCallback.post, hmode, hfull]
  · intro hcb htimer
    exact ReadCallback.run_inert evs cb hcb htimer

/-- Witness for C6 amended at concrete inputs: an exactly-filling data
event deregisters, and a cancelled (hence deregistered, timer-disarmed)
callback ignores a later data event. -/
theorem c6_amended_terminal_events_deregister_witness :
    ((readInit (ReadMode.fixed 10) true).readDataAvailable 10).readCBInstalled
      = false ∧
    ((readInit (ReadMode.fixed 10) true).cancel).run [ReadEvent.data 3]
      = (readInit (ReadMode.fixed 10) true).cancel :=
  ⟨((c6_amended_terminal_events_deregister (readInit (ReadMode.fixed 10) true)
      SocketError.timedOut 10 []).2.2.2.1 10 rfl (by decide)).1,
    (c6_amended_terminal_events_deregister
      ((readInit (ReadMode.fixed 10) true).cancel) SocketError.timedOut 3
      [ReadEvent.data 3]).2.2.2.2 (by decide) (by decide)⟩

/-- C4: For a read with a nonzero timeout, in either buffer mode (fixed
caller buffer or growing `IOBufQueue` — both constructors arm the
timer), if the timer fires with zero bytes read so far, the callback
deregisters itself, records a timed-out error and posts, and the read
call results in the timeout error; if at least one byte was read before
the timer fired, the timer expiration records no error and does not post
(the final post count is the single post from the data event), and the
read call returns the byte count. -/
theorem c4_read_timeout (s : Socket) (mode : ReadMode) (N : Nat)
    (hdef : s.deferredReadEOF = false) (hN : 0 < N) :
    (Socket.read s mode true false false
        [ReadEvent.timeout]).result = OpResult.error SocketError.timedOut ∧
    (Socket.read s mode true false false [ReadEvent.timeout]).cb
      = some { mode := mode, length := 0, eof := false,
               error := some SocketError.timedOut, readCBInstalled := false,
               timerScheduled := false, postCount := 1 } ∧
    (Socket.read s mode true false false
        [ReadEvent.data N, ReadEvent.timeout]).result = OpResult.ok N ∧
    (Socket.read s mode true false false
        [ReadEvent.data N, ReadEvent.timeout]).cb
      = some { mode := mode, length := N, eof := false,
               error := none, readCBInstalled := false,
               timerScheduled := false, postCount := 1 } := by
  have hrun1 : (readInit mode true).run [ReadEvent.timeout]
      = { mode := mode, length := 0, eof := false,
          error := some SocketError.timedOut, readCBInstalled := false,
          timerScheduled := false, postCount := 1 } := by
    simp [ReadCallback.run, ReadCallback.step, readInit, ReadCallback.mk0,
      ReadCallback.timeoutExpired, ReadCallback.post]
  have hrun2 : (readInit mode true).run
      [ReadEvent.data N, ReadEvent.timeout]
      = { mode := mode, length := N, eof := false, error := none,
          readCBInstalled := false, timerScheduled := false, postCount := 1 } := by
    cases mode with
    | growing m a =>
        simp [ReadCallback.run, ReadCallback.step, readInit, ReadCallback.mk0,
          ReadCallback.readDataAvailable, ReadCallback.timeoutExpired,
          ReadCallback.post, Nat.pos_iff_ne_zero.mp hN]
    | fixed S =>
        by_cases hNS : N = S
        · subst hNS
          simp [ReadCallback.run, ReadCallback.step, readInit, ReadCallback.mk0,
            ReadCallback.readDataAvailable, ReadCallback.timeoutExpired,
            ReadCallback.post]
        · simp [ReadCallback.run, ReadCallback.step, readInit, ReadCallback.mk0,
            ReadCallback.readDataAvailable, ReadCallback.timeoutExpired,
            ReadCallback.post, hNS, Nat.pos_iff_ne_zero.mp hN]
  refine ⟨?_, ?_, ?_, ?_⟩ <;>
    simp [Socket.read, hdef, CallbackBase.wait, hrun1, hrun2]

/-- Witness for C4 at concrete inputs: timeout-armed reads on a fresh
socket — a starved fixed-buffer read, a fixed-buffer read that got
4 bytes before the timer fired, and a growing-buffer read that got
4 bytes before the timer fired. -/
theorem c4_read_timeout_witness :
    (Socket.deferredReadEOF { deferredReadEOF := false } = false ∧ 0 < 4) ∧
    (Socket.read { deferredReadEOF := false } (ReadMode.fixed 10) true false
        false [ReadEvent.timeout]).result
      = OpResult.error SocketError.timedOut ∧
    (Socket.read { deferredReadEOF := false } (ReadMode.fixed 10) true false
        false [ReadEvent.data 4, ReadEvent.timeout]).result = OpResult.ok 4 ∧
    (Socket.read { deferredReadEOF := false } (ReadMode.growing 100 200) true
        false false [ReadEvent.data 4, ReadEvent.timeout]).result
      = OpResult.ok 4 :=
  ⟨⟨by decide, by decide⟩,
    (c4_read_timeout { deferredReadEOF := false } (ReadMode.fixed 10) 4
      (by decide) (by decide)).1,
    (c4_read_timeout { deferredReadEOF := false } (ReadMode.fixed 10) 4
      (by decide) (by decide)).2.2.1,
    (c4_read_timeout { deferredReadEOF := false } (ReadMode.growing 100 200) 4
      (by decide) (by decide)).2.2.1⟩

/-- C5: A write that fails after transmitting `k` bytes sets the supplied
writeInfo out-parameter to `k` before surfacing the failure, and the
surfaced error is the write failure itself; moreover every non-success
path of write — transport error or cancellation — populates the supplied
writeInfo with the callback's bytes-written count before raising. -/
theorem c5_write_error_populates_writeinfo (k : Nat) (e : SocketError)
    (k1 k2 : Bool) (wev : Option WriteEvent)
    (hne : (Socket.write true k1 k2 wev).result ≠ OpResult.ok ()) :
    ((Socket.write true false false (some (WriteEvent.err k e))).result
        = OpResult.error e ∧
      (Socket.write true false false (some (WriteEvent.err k e))).writeInfoOut
        = some k) ∧
    (Socket.write true k1 k2 wev).writeInfoOut
      = some (Socket.write true k1 k2 wev).cb.bytesWritten := by
  refine ⟨⟨rfl, rfl⟩, ?_⟩
  cases k1 <;> cases k2 <;>
    (try rcases wev with _ | (_ | ⟨b, e2⟩)) <;>
    first
      | rfl
      | exact absurd rfl hne

/-- Witness for C5 at a concrete input: a write that fails after 30 bytes
with a transport error. -/
theorem c5_write_error_populates_writeinfo_witness :
    (Socket.write true false false
        (some (WriteEvent.err 30 (SocketError.transportError 5)))).result
      ≠ OpResult.ok () ∧
    (Socket.write true false false
        (some (WriteEvent.err 30 (SocketError.transportError 5)))).writeInfoOut
      = some 30 :=
  ⟨by decide,
    (c5_write_error_populates_writeinfo 30 (SocketError.transportError 5)
      false false (some (WriteEvent.err 30 (SocketError.transportError 5)))
      (by decide)).2⟩

/-- C8: While the callback is installed, a data-available event adds the
delivered byte count to the running length and posts the signal (the
event is satisfied as soon as any data arrives); in fixed mode the region
offered to the transport starts at the running length (the delivered
bytes land contiguously in the caller's buffer), and the event
deregisters the callback and cancels its timer exactly when the fixed
buffer becomes exactly full; in growing mode a data event never
deregisters and never touches the timer. -/
theorem c8_data_event_accumulates (cb : ReadCallback) (len : Nat)
    (hinst : cb.readCBInstalled = true) :
    (cb.readDataAvailable len).length = cb.length + len ∧
    (cb.readDataAvailable len).postCount = cb.postCount + 1 ∧
    (∀ m a, cb.mode = ReadMode.growing m a →
      (cb.readDataAvailable len).readCBInstalled = true ∧
      (cb.readDataAvailable len).timerScheduled = cb.timerScheduled) ∧
    (∀ bufSize, cb.mode = ReadMode.fixed bufSize →
      cb.getReadBuffer = (cb.length, bufSize - cb.length) ∧
      ((cb.readDataAvailable len).readCBInstalled = false ↔
        cb.length + len = bufSize) ∧
      ((cb.readDataAvailable len).timerScheduled
        = (cb.timerScheduled && !(decide (cb.length + len = bufSize))))) := by
  refine ⟨ReadCallback.readDataAvailable_length cb len, ?_, ?_, ?_⟩
  · simp only [ReadCallback.readDataAvailable, ReadCallback.post]
    split <;> (try split) <;> rfl
  · intro m a hmode
    simp [ReadCallback.readDataAvailable, ReadCallback.post, hmode, hinst]
  · intro bufSize hmode
    refine ⟨by simp [ReadCallback.getReadBuffer, hmode], ?_, ?_⟩ <;>
      by_cases hfull : cb.length + len = bufSize <;>
      simp [ReadCallback.readDataAvailable, ReadCallback.post, hmode, hfull,
        hinst]

/-- Witness for C8 at a concrete input: 3 bytes delivered into an
installed fixed 10-byte callback that already holds 2 bytes. -/
theorem c8_data_event_accumulates_witness :
    ({ readInit (ReadMode.fixed 10) true with length := 2
        }.readDataAvailable 3).length = 2 + 3 ∧
    ({ readInit (ReadMode.fixed 10) true with length := 2 } :
      ReadCallback).getReadBuffer = (2, 10 - 2) :=
  ⟨(c8_data_event_accumulates
      { readInit (ReadMode.fixed 10) true with length := 2 } 3 (by decide)).1,
    ((c8_data_event_accumulates
      { readInit (ReadMode.fixed 10) true with length := 2 } 3
      (by decide)).2.2.2 10 rfl).1⟩

/-- C9: For every fixed-buffer read into a buffer of size `bufSize`,
under the transport contract that each delivered data event writes at
most the capacity offered by `getReadBuffer` (the unfilled remainder of
the caller's buffer), the byte count returned by the read never exceeds
`bufSize`. -/
theorem c9_fixed_read_bounded (s : Socket) (bufSize : Nat)
    (timeoutPos k1 k2 : Bool) (evs : List ReadEvent) (n : Nat)
    (hval : (readInit (ReadMode.fixed bufSize) timeoutPos).validRun evs = true)
    (hres : (Socket.read s (ReadMode.fixed bufSize) timeoutPos k1 k2 evs).result
      = OpResult.ok n) :
    n ≤ bufSize := by
  by_cases hdef : s.deferredReadEOF = true
  · simp [Socket.read, hdef] at hres
    omega
  · have hdef2 : s.deferredReadEOF = false := by simpa using hdef
    cases k1 with
    | true => simp [Socket.read, hdef2, CallbackBase.wait] at hres
    | false =>
        cases k2 with
        | true => simp [Socket.read, hdef2, CallbackBase.wait] at hres
        | false =>
            rcases herrcase : ((readInit (ReadMode.fixed bufSize)
                timeoutPos).run evs).error with _ | e2
            · have hlen := ReadCallback.length_le_of_validRun bufSize evs
                (readInit (ReadMode.fixed bufSize) timeoutPos) rfl
                (by simp [readInit, ReadCallback.mk0]) hval
              simp [Socket.read, hdef2, CallbackBase.wait, herrcase] at hres
              omega
            · simp [Socket.read, hdef2, CallbackBase.wait, herrcase] at hres

/-- Witness for C9 at a concrete input: a 10-byte fixed read receiving
4 then 6 bytes returns 10 ≤ 10. -/
theorem c9_fixed_read_bounded_witness :
    ((readInit (ReadMode.fixed 10) false).validRun
        [ReadEvent.data 4, ReadEvent.data 6] = true ∧
      (Socket.read { deferredReadEOF := false } (ReadMode.fixed 10) false false
          false [ReadEvent.data 4, ReadEvent.data 6]).result
        = OpResult.ok 10) ∧
    (10 : Nat) ≤ 10 :=
  ⟨⟨by decide, by decide⟩,
    c9_fixed_read_bounded { deferredReadEOF := false } 10 false false false
      [ReadEvent.data 4, ReadEvent.data 6] 10 (by decide) (by decide)⟩

/-- C10: Every read that completes with an error or with cancellation
leaves the socket state — in particular `deferredReadEOF_` — exactly as
it was at the start of the call: the error is re-raised at the resume
point before the adapter reaches the success-path assignment of the
deferred-EOF bit. -/
theorem c10_error_read_leaves_deferred_unchanged (s : Socket) (mode : ReadMode)
    (timeoutPos k1 k2 : Bool) (evs : List ReadEvent)
    (h : (Socket.read s mode timeoutPos k1 k2 evs).result = OpResult.cancelled ∨
      ∃ e, (Socket.read s mode timeoutPos k1 k2 evs).result = OpResult.error e) :
    (Socket.read s mode timeoutPos k1 k2 evs).sock = s := by
  by_cases hdef : s.deferredReadEOF = true
  · rcases h with h | ⟨e, h⟩ <;> simp [Socket.read, hdef] at h
  · have hdef2 : s.deferredReadEOF = false := by simpa using hdef
    cases k1 with
    | true => simp [Socket.read, hdef2, CallbackBase.wait]
    | false =>
        cases k2 with
        | true => simp [Socket.read, hdef2, CallbackBase.wait]
        | false =>
            rcases herrcase : ((readInit mode timeoutPos).run evs).error
              with _ | e2
            · rcases h with h | ⟨e, h⟩ <;>
                simp [Socket.read, hdef2, CallbackBase.wait, herrcase] at h
            · simp [Socket.read, hdef2, CallbackBase.wait, herrcase]

/-- Witness for C10 at a concrete input: a timed-out read on a fresh
socket leaves the socket state unchanged. -/
theorem c10_error_read_leaves_deferred_unchanged_witness :
    ((Socket.read { deferredReadEOF := false } (ReadMode.fixed 10) true false
        false [ReadEvent.timeout]).result = OpResult.cancelled ∨
      ∃ e, (Socket.read { deferredReadEOF := false } (ReadMode.fixed 10) true
        false false [ReadEvent.timeout]).result = OpResult.error e) ∧
    (Socket.read { deferredReadEOF := false } (ReadMode.fixed 10) true false
        false [ReadEvent.timeout]).sock = { deferredReadEOF := false } :=
  ⟨Or.inr ⟨SocketError.timedOut, by decide⟩,
    c10_error_read_leaves_deferred_unchanged { deferredReadEOF := false }
      (ReadMode.fixed 10) true false false [ReadEvent.timeout]
      (Or.inr ⟨SocketError.timedOut, by decide⟩)⟩
